import Mathlib

/-!
Verification development for the n8n-nodes-viridem credential-resolution core.

The definitions below are a shallow embedding of the TypeScript sources:
  * `TokenCacheManager` (utils/TokenCacheManager.ts),
  * `ViridemOAuth2API` (credentials/ViridemOAuth2API.ts, tryOAuth2Authentication,
    tryBasicAuthentication, getAccessToken, formatAuthHeader),
  * the legacy `ViridemOauth2` credential class (credentials/ViridemOauth2.ts).

Time (`Date.now()`) is passed explicitly as an `Int` of epoch milliseconds.
Network I/O (`fetch`) is modelled by a `NetEnv` record holding the outcome of
the two possible requests; each executed request is recorded in a trace of
`NetCall`s so that "no network call happened" is a provable statement.
JavaScript string falsiness (absent or empty string) is modelled by
`Option String` together with `truthy` and the `x || d` operator `jsOr`.
-/

namespace Viridem

/-- JS truthiness of a possibly-absent string: `undefined` and `""` are falsy. -/
def truthy : Option String → Bool
  | none => false
  | some s => !(s == "")

/-- The JS expression `o || d` for strings: the value when truthy, else `d`. -/
def jsOr (o : Option String) (d : String) : String :=
  match o with
  | none => d
  | some s => if s == "" then d else s

/-- The JS expression `o || d` for numbers: `0` and `undefined` are falsy. -/
def jsOrInt (o : Option Int) (d : Int) : Int :=
  match o with
  | none => d
  | some v => if v == 0 then d else v

/-- A JS template-literal interpolation of a possibly-undefined string:
`undefined` prints as the string `undefined`. -/
def jsTemplate (o : Option String) : String :=
  match o with
  | none => "undefined"
  | some s => s

/-- JS `String.prototype.startsWith`, via the underlying character lists. -/
def strStartsWith (s pre : String) : Bool :=
  List.isPrefixOf pre.data s.data

/-- Whether `pat` occurs as a contiguous run inside `l`. -/
def infixCheck (pat : List Char) : List Char → Bool
  | [] => pat.isEmpty
  | a :: rest => List.isPrefixOf pat (a :: rest) || infixCheck pat rest

/-- JS `String.prototype.includes`, via the underlying character lists. -/
def containsSubstr (s pat : String) : Bool :=
  infixCheck pat.data s.data

/-- UTF-8 encoding of one character, as byte values (`Buffer.from(s)` bytes). -/
def utf8Bytes (c : Char) : List Nat :=
  let n := c.toNat
  if n < 128 then [n]
  else if n < 2048 then [192 + n / 64, 128 + n % 64]
  else if n < 65536 then [224 + n / 4096, 128 + n / 64 % 64, 128 + n % 64]
  else [240 + n / 262144, 128 + n / 4096 % 64, 128 + n / 64 % 64, 128 + n % 64]

/-- The base64 alphabet. -/
def b64Table : List Char :=
  ("ABCDEFGHIJKLMNOPQRSTUVWXYZabcdefghijklmnopqrstuvwxyz0123456789+/").data

/-- The base64 digit for a 6-bit value. -/
def b64Char (n : Nat) : Char := b64Table.getD n ('A')

/-- Standard base64 of a byte list, with `=` padding. -/
def b64Chunks : List Nat → List Char
  | a :: b :: c :: rest =>
    b64Char (a / 4) :: b64Char ((a % 4) * 16 + b / 16) ::
      b64Char ((b % 16) * 4 + c / 64) :: b64Char (c % 64) :: b64Chunks rest
  | [a, b] => [b64Char (a / 4), b64Char ((a % 4) * 16 + b / 16), b64Char ((b % 16) * 4), '=']
  | [a] => [b64Char (a / 4), b64Char ((a % 4) * 16), '=', '=']
  | [] => []

/-- JS `Buffer.from(s).toString('base64')`: base64 of the UTF-8 bytes of `s`. -/
def b64encode (s : String) : String :=
  String.mk (b64Chunks (List.flatten (s.data.map utf8Bytes)))

/-- JS `Map.set`: replace in place when the key is present, else append. -/
def mapSet {α : Type} (m : List (String × α)) (k : String) (v : α) : List (String × α) :=
  if m.any (fun p => p.1 == k) then
    m.map (fun p => if p.1 == k then (k, v) else p)
  else
    m ++ [(k, v)]

/-- JS `Map.delete`: remove the entry with the given key. -/
def mapDelete {α : Type} (m : List (String × α)) (k : String) : List (String × α) :=
  m.filter (fun p => !(p.1 == k))

/-- A decrypted credential record (`ICredentialDataDecryptedObject`); every
field read anywhere in the sources is present, absent/empty fields are `none`
or `some ""`. -/
structure Credentials where
  baseUrl : Option String
  username : Option String
  password : Option String
  client_id : Option String
  client_secret : Option String
  clientId : Option String
  user : Option String
  deriving DecidableEq

/-- Field lookup by the string names used in `requiredFields`. -/
def credField (c : Credentials) : String → Option String
  | "baseUrl" => c.baseUrl
  | "username" => c.username
  | "password" => c.password
  | "client_id" => c.client_id
  | "client_secret" => c.client_secret
  | "clientId" => c.clientId
  | "user" => c.user
  | _ => none

/-- `TokenCacheEntry.type`: the `'oauth' | 'basic'` union. -/
inductive TokenType where
  | oauth
  | basic
  deriving DecidableEq

/-- `TokenCacheEntry` from TokenCacheManager.ts. -/
structure TokenCacheEntry where
  token : String
  expires : Int
  type : TokenType
  deriving DecidableEq

/-- `CacheConfig` from TokenCacheManager.ts. -/
structure CacheConfig where
  bufferTime : Int
  defaultTokenExpiry : Int
  minCacheDuration : Int
  cleanupInterval : Int
  deriving DecidableEq

/-- `DEFAULT_CACHE_CONFIG`. -/
def DEFAULT_CACHE_CONFIG : CacheConfig :=
  { bufferTime := 60000
    defaultTokenExpiry := 3600000
    minCacheDuration := 300000
    cleanupInterval := 300000 }

/-- `Partial<CacheConfig>` as passed to `registerCacheConfig`. -/
structure PartialCacheConfig where
  bufferTime : Option Int
  defaultTokenExpiry : Option Int
  minCacheDuration : Option Int
  cleanupInterval : Option Int

/-- The object spread `{ ...DEFAULT_CACHE_CONFIG, ...config }`. -/
def CacheConfig.mergeOver (base : CacheConfig) (p : PartialCacheConfig) : CacheConfig :=
  { bufferTime := p.bufferTime.getD base.bufferTime
    defaultTokenExpiry := p.defaultTokenExpiry.getD base.defaultTokenExpiry
    minCacheDuration := p.minCacheDuration.getD base.minCacheDuration
    cleanupInterval := p.cleanupInterval.getD base.cleanupInterval }

/-- The mutable fields of the singleton `TokenCacheManager`. -/
structure TokenCacheManager where
  cache : List (String × TokenCacheEntry)
  keyGenerators : List (String × (Credentials → String))
  cacheConfigs : List (String × CacheConfig)

/-- A freshly constructed manager: all maps empty. -/
def TokenCacheManager.empty : TokenCacheManager :=
  { cache := [], keyGenerators := [], cacheConfigs := [] }

/-- `registerKeyGenerator(credentialType, generator)`. -/
def TokenCacheManager.registerKeyGenerator (st : TokenCacheManager) (credentialType : String)
    (g : Credentials → String) : TokenCacheManager :=
  { st with keyGenerators := mapSet st.keyGenerators credentialType g }

/-- `registerCacheConfig(credentialType, config)`. -/
def TokenCacheManager.registerCacheConfig (st : TokenCacheManager) (credentialType : String)
    (p : PartialCacheConfig) : TokenCacheManager :=
  { st with cacheConfigs :=
      mapSet st.cacheConfigs credentialType (CacheConfig.mergeOver DEFAULT_CACHE_CONFIG p) }

/-- `getCacheConfig(credentialType)`. -/
def TokenCacheManager.getCacheConfig (st : TokenCacheManager) (credentialType : String) :
    CacheConfig :=
  (st.cacheConfigs.lookup credentialType).getD DEFAULT_CACHE_CONFIG

/-- `defaultKeyGenerator(credentials)`. -/
def TokenCacheManager.defaultKeyGenerator (credentials : Credentials) : String :=
  jsOr credentials.baseUrl ("unknown") ++ "-" ++
    jsOr credentials.username (jsOr credentials.user ("anonymous"))

/-- `generateKey(credentialType, credentials)`. -/
def TokenCacheManager.generateKey (st : TokenCacheManager) (credentialType : String)
    (credentials : Credentials) : String :=
  match st.keyGenerators.lookup credentialType with
  | some g => g credentials
  | none => TokenCacheManager.defaultKeyGenerator credentials

/-- `get(key)`: returns the entry unless expired; deletes an expired entry. -/
def TokenCacheManager.get (now : Int) (st : TokenCacheManager) (key : String) :
    Option TokenCacheEntry × TokenCacheManager :=
  match st.cache.lookup key with
  | some entry =>
    if entry.expires ≤ now then
      (none, { st with cache := mapDelete st.cache key })
    else
      (some entry, st)
  | none => (none, st)

/-- `set(key, entry)`. -/
def TokenCacheManager.set (st : TokenCacheManager) (key : String) (entry : TokenCacheEntry) :
    TokenCacheManager :=
  { st with cache := mapSet st.cache key entry }

/-- `delete(key)`: returns whether an entry existed. -/
def TokenCacheManager.delete (st : TokenCacheManager) (key : String) :
    Bool × TokenCacheManager :=
  (st.cache.any (fun p => p.1 == key), { st with cache := mapDelete st.cache key })

/-- `has(key)`: freshness check that also purges an expired entry. -/
def TokenCacheManager.has (now : Int) (st : TokenCacheManager) (key : String) :
    Bool × TokenCacheManager :=
  match st.cache.lookup key with
  | none => (false, st)
  | some entry =>
    if entry.expires ≤ now then
      (false, { st with cache := mapDelete st.cache key })
    else
      (true, st)

/-- `size()`. -/
def TokenCacheManager.size (st : TokenCacheManager) : Nat :=
  st.cache.length

/-- `keys()`. -/
def TokenCacheManager.keysOf (st : TokenCacheManager) : List String :=
  st.cache.map (fun p => p.1)

/-- `getByCredentials(credentialType, credentials)`. -/
def TokenCacheManager.getByCredentials (now : Int) (st : TokenCacheManager)
    (credentialType : String) (credentials : Credentials) :
    Option TokenCacheEntry × TokenCacheManager :=
  TokenCacheManager.get now st (st.generateKey credentialType credentials)

/-- `setByCredentials(credentialType, credentials, entry)`. -/
def TokenCacheManager.setByCredentials (st : TokenCacheManager) (credentialType : String)
    (credentials : Credentials) (entry : TokenCacheEntry) : TokenCacheManager :=
  st.set (st.generateKey credentialType credentials) entry

/-- `createOAuthEntry(credentialType, token, expiresInSeconds)`, with `now`
(`Date.now()`) explicit. -/
def TokenCacheManager.createOAuthEntry (st : TokenCacheManager) (credentialType : String)
    (token : String) (expiresInSeconds : Int) (now : Int) : TokenCacheEntry :=
  let config := st.getCacheConfig credentialType
  let expiresIn := max (expiresInSeconds * 1000) config.minCacheDuration
  { token := token
    expires := now + expiresIn - config.bufferTime
    type := TokenType.oauth }

/-- `createBasicAuthEntry(credentialType, token)`, with `now` explicit. -/
def TokenCacheManager.createBasicAuthEntry (st : TokenCacheManager) (credentialType : String)
    (token : String) (now : Int) : TokenCacheEntry :=
  let config := st.getCacheConfig credentialType
  { token := token
    expires := now + config.defaultTokenExpiry
    type := TokenType.basic }

/-- `cleanupExpiredTokens()`: the `for`-loop that deletes every expired entry. -/
def TokenCacheManager.cleanupExpiredTokens (now : Int) (st : TokenCacheManager) :
    TokenCacheManager :=
  { st with cache := st.cache.filter (fun p => !(p.2.expires ≤ now)) }

/-- `cleanupNow()`. -/
def TokenCacheManager.cleanupNow (now : Int) (st : TokenCacheManager) : TokenCacheManager :=
  TokenCacheManager.cleanupExpiredTokens now st

/-- The result record of `getStats()`; `types` has only the two possible keys. -/
structure CacheStats where
  total : Nat
  expired : Nat
  active : Nat
  typesOauth : Nat
  typesBasic : Nat
  deriving DecidableEq

/-- The counting loop of `getStats()` over the cache entries. -/
def statsLoop (now : Int) : List (String × TokenCacheEntry) → Nat × Nat × Nat × Nat
  | [] => (0, 0, 0, 0)
  | (_, e) :: rest =>
    let r := statsLoop now rest
    let r1 := if e.expires ≤ now then (r.1 + 1, r.2.1, r.2.2.1, r.2.2.2)
              else (r.1, r.2.1 + 1, r.2.2.1, r.2.2.2)
    match e.type with
    | TokenType.oauth => (r1.1, r1.2.1, r1.2.2.1 + 1, r1.2.2.2)
    | TokenType.basic => (r1.1, r1.2.1, r1.2.2.1, r1.2.2.2 + 1)

/-- `getStats()`: reads the cache and returns counters; the manager state is
threaded through unchanged, exactly as the method body never writes it. -/
def TokenCacheManager.getStats (now : Int) (st : TokenCacheManager) :
    CacheStats × TokenCacheManager :=
  let r := statsLoop now st.cache
  ({ total := st.cache.length
     expired := r.1
     active := r.2.1
     typesOauth := r.2.2.1
     typesBasic := r.2.2.2 }, st)

/-- `OAuth2TokenResponse`: the parsed JSON body of the token endpoint. -/
structure OAuth2TokenResponse where
  access_token : Option String
  expires_in : Option Int
  error : Option String
  error_description : Option String
  deriving DecidableEq

/-- The observable part of the `fetch` response of the OAuth2 token request:
status flag/code/text, the body text (`response.text()`), and the outcome of
`response.json()` (which may itself fail). -/
structure OAuthHttpResponse where
  ok : Bool
  status : Nat
  statusText : String
  text : String
  json : Except String OAuth2TokenResponse

/-- The observable part of the `fetch` response of the Basic Auth probe. -/
structure BasicHttpResponse where
  ok : Bool
  status : Nat
  statusText : String
  text : String

/-- The network environment of one resolution call: the outcome of each of the
two requests the resolver can make (`Except.error` is a rejected `fetch`). -/
structure NetEnv where
  oauthFetch : Except String OAuthHttpResponse
  basicFetch : Except String BasicHttpResponse

/-- A performed network request. -/
inductive NetCall where
  | oauthToken
  | basicProbe
  deriving DecidableEq

/-- The credential type string used throughout ViridemOAuth2API.ts. -/
def viridemType : String := "ViridemOAuth2API"

/-- The key generator registered for `ViridemOAuth2API` at module load. -/
def viridemKeyGenerator (credentials : Credentials) : String :=
  if truthy credentials.clientId && truthy credentials.baseUrl then
    "viridem_" ++ jsTemplate credentials.clientId ++ "_" ++ jsTemplate credentials.baseUrl
  else
    "viridem_" ++ jsOr credentials.username ("unknown") ++ "_" ++
      jsOr credentials.baseUrl ("default")

/-- The singleton manager right after the module-load side effects of
ViridemOAuth2API.ts: key generator and cache config registered. -/
def viridemState0 : TokenCacheManager :=
  (TokenCacheManager.empty.registerKeyGenerator viridemType viridemKeyGenerator
    ).registerCacheConfig viridemType
      { bufferTime := some 60000
        defaultTokenExpiry := some 3600000
        minCacheDuration := some 300000
        cleanupInterval := some 300000 }

/-- `requiredFields` from `ViridemOAuth2API.getAccessToken`. -/
def requiredFields : List String :=
  ["client_id", "client_secret", "username", "password", "baseUrl"]

/-- `missingFields`: the required fields that are falsy on the record. -/
def missingFields (credentials : Credentials) : List String :=
  requiredFields.filter (fun f => !truthy (credField credentials f))

/-- `ViridemOAuth2API.formatAuthHeader`. -/
def ViridemOAuth2API.formatAuthHeader (token : String) : String :=
  if strStartsWith token ("Basic ") || strStartsWith token ("Bearer ") then token
  else "Bearer " ++ token

/-- `ViridemOAuth2API.tryOAuth2Authentication`: performs the token request and,
on success, caches the token and returns it; every failure is the thrown
error's message. -/
def ViridemOAuth2API.tryOAuth2Authentication (env : NetEnv) (credentials : Credentials)
    (now : Int) (st : TokenCacheManager) : Except String (String × TokenCacheManager) :=
  match env.oauthFetch with
  | Except.error m => Except.error m
  | Except.ok response =>
    if !response.ok then
      Except.error ("HTTP " ++ toString response.status ++ ": " ++ response.statusText ++
        ". " ++ response.text)
    else
      match response.json with
      | Except.error m => Except.error m
      | Except.ok data =>
        if truthy data.error || !truthy data.access_token then
          Except.error ("OAuth2 Error: " ++ jsOr data.error ("No access token received"))
        else
          let token := (data.access_token).getD ("")
          let cacheEntry := st.createOAuthEntry viridemType token
            (jsOrInt data.expires_in 3600) now
          Except.ok (token, st.setByCredentials viridemType credentials cacheEntry)

/-- `ViridemOAuth2API.tryBasicAuthentication`: probes the versions endpoint
with `Basic base64(username:password)` and caches the header on success. -/
def ViridemOAuth2API.tryBasicAuthentication (env : NetEnv) (credentials : Credentials)
    (now : Int) (st : TokenCacheManager) : Except String (String × TokenCacheManager) :=
  let basicAuth := b64encode (jsTemplate credentials.username ++ ":" ++
    jsTemplate credentials.password)
  let basicAuthHeader := "Basic " ++ basicAuth
  match env.basicFetch with
  | Except.error m => Except.error m
  | Except.ok testResponse =>
    if !testResponse.ok then
      Except.error ("HTTP " ++ toString testResponse.status ++ ": " ++
        testResponse.statusText ++ ". " ++ testResponse.text)
    else
      let cacheEntry := st.createBasicAuthEntry viridemType basicAuthHeader now
      Except.ok (basicAuthHeader, st.setByCredentials viridemType credentials cacheEntry)

/-- The validation-and-fallback tail of `ViridemOAuth2API.getAccessToken`,
entered when no fresh cache entry was found. -/
def ViridemOAuth2API.authSequence (env : NetEnv) (now : Int) (credentials : Credentials)
    (st : TokenCacheManager) : Except String String × TokenCacheManager × List NetCall :=
  let missing := missingFields credentials
  if missing.isEmpty then
    match ViridemOAuth2API.tryOAuth2Authentication env credentials now st with
    | Except.ok r => (Except.ok r.1, r.2, [NetCall.oauthToken])
    | Except.error oauthMsg =>
      match ViridemOAuth2API.tryBasicAuthentication env credentials now st with
      | Except.ok r => (Except.ok r.1, r.2, [NetCall.oauthToken, NetCall.basicProbe])
      | Except.error basicMsg =>
        (Except.error ("All authentication methods failed. OAuth2: " ++ oauthMsg ++
          ". Basic Auth: " ++ basicMsg), st, [NetCall.oauthToken, NetCall.basicProbe])
  else
    (Except.error ("Missing required credentials: " ++ String.intercalate (", ") missing),
      st, [])

/-- `ViridemOAuth2API.getAccessToken`: cache check, validation, OAuth2 attempt,
Basic Auth fallback. -/
def ViridemOAuth2API.getAccessToken (env : NetEnv) (now : Int) (credentials : Credentials)
    (st : TokenCacheManager) : Except String String × TokenCacheManager × List NetCall :=
  let r := TokenCacheManager.getByCredentials now st viridemType credentials
  match r.1 with
  | some cachedToken =>
    if cachedToken.expires > now then (Except.ok cachedToken.token, r.2, [])
    else ViridemOAuth2API.authSequence env now credentials r.2
  | none => ViridemOAuth2API.authSequence env now credentials r.2

/-- The legacy module-level `tokenCache` entries of ViridemOauth2.ts. -/
structure LegacyEntry where
  token : String
  expires : Int
  deriving DecidableEq

/-- The legacy cache key `${credentials.baseUrl}-${credentials.username}`. -/
def legacyCacheKey (credentials : Credentials) : String :=
  jsTemplate credentials.baseUrl ++ "-" ++ jsTemplate credentials.username

/-- The fixed validation message of the legacy `getAccessToken`. -/
def legacyMissingMsg : String :=
  "Missing required credentials: client_id, client_secret, username, or password"

/-- The `catch` block of the legacy `getAccessToken`: the Basic Auth probe;
any failure falls through to the combined error naming only the OAuth2
reason. -/
def ViridemOauth2.catchBlock (env : NetEnv) (now : Int) (credentials : Credentials)
    (tokenCache : List (String × LegacyEntry)) (cacheKey oauthMsg : String) :
    Except String String × List (String × LegacyEntry) × List NetCall :=
  let finalErr := Except.error ("Authentication failed: OAuth2 failed (" ++ oauthMsg ++
    "), Basic Auth also failed")
  let basicAuth := b64encode (jsTemplate credentials.username ++ ":" ++
    jsTemplate credentials.password)
  match env.basicFetch with
  | Except.error _ => (finalErr, tokenCache, [NetCall.oauthToken, NetCall.basicProbe])
  | Except.ok testResponse =>
    if testResponse.ok then
      let basicAuthHeader := "Basic " ++ basicAuth
      (Except.ok basicAuthHeader,
        mapSet tokenCache cacheKey { token := basicAuthHeader, expires := now + 3600000 },
        [NetCall.oauthToken, NetCall.basicProbe])
    else (finalErr, tokenCache, [NetCall.oauthToken, NetCall.basicProbe])

/-- The `try` block of the legacy `getAccessToken`: the OAuth2 exchange; any
thrown error (transport, non-2xx, parse, token error) lands in the catch
block. -/
def ViridemOauth2.tryBlock (env : NetEnv) (now : Int) (credentials : Credentials)
    (tokenCache : List (String × LegacyEntry)) (cacheKey : String) :
    Except String String × List (String × LegacyEntry) × List NetCall :=
  match env.oauthFetch with
  | Except.error m => ViridemOauth2.catchBlock env now credentials tokenCache cacheKey m
  | Except.ok response =>
    if !response.ok then
      ViridemOauth2.catchBlock env now credentials tokenCache cacheKey
        ("HTTP " ++ toString response.status ++ ": " ++ response.statusText)
    else
      match response.json with
      | Except.error m =>
        ViridemOauth2.catchBlock env now credentials tokenCache cacheKey m
      | Except.ok data =>
        if truthy data.error || !truthy data.access_token then
          ViridemOauth2.catchBlock env now credentials tokenCache cacheKey
            ("OAuth2 Error: " ++ jsOr data.error ("No access token received") ++
              " - " ++ jsOr data.error_description (""))
        else
          let expiresIn := jsOrInt data.expires_in 3600 * 1000
          let expiryTime := now + expiresIn - 60000
          (Except.ok ((data.access_token).getD ("")),
            mapSet tokenCache cacheKey
              { token := (data.access_token).getD (""), expires := expiryTime },
            [NetCall.oauthToken])

/-- Legacy `ViridemOauth2.getAccessToken` over the module-level `tokenCache`. -/
def ViridemOauth2.getAccessToken (env : NetEnv) (now : Int) (credentials : Credentials)
    (tokenCache : List (String × LegacyEntry)) :
    Except String String × List (String × LegacyEntry) × List NetCall :=
  let cacheKey := legacyCacheKey credentials
  let hit := match tokenCache.lookup cacheKey with
    | some e => if e.expires > now then some e.token else none
    | none => none
  match hit with
  | some token => (Except.ok token, tokenCache, [])
  | none =>
    if !truthy credentials.client_id || !truthy credentials.client_secret ||
        !truthy credentials.username || !truthy credentials.password then
      (Except.error legacyMissingMsg, tokenCache, [])
    else
      ViridemOauth2.tryBlock env now credentials tokenCache cacheKey

/-! Shared helper lemmas about the list and string machinery. -/

theorem isPrefixOf_append_self (l m : List Char) : List.isPrefixOf l (l ++ m) = true := by
  induction l with
  | nil => simp [List.isPrefixOf]
  | cons a t ih => simp [List.isPrefixOf, ih]

theorem infixCheck_of_isPrefixOf {pat s : List Char} (h : List.isPrefixOf pat s = true) :
    infixCheck pat s = true := by
  cases s with
  | nil =>
    cases pat with
    | nil => rfl
    | cons a t => simp [List.isPrefixOf] at h
  | cons a rest => simp [infixCheck, h]

theorem infixCheck_append_left (a : List Char) {pat s : List Char}
    (h : infixCheck pat s = true) : infixCheck pat (a ++ s) = true := by
  induction a with
  | nil => rw [List.nil_append]; exact h
  | cons x t ih => simp [infixCheck, ih]

theorem containsSubstr_right (a b : String) : containsSubstr (a ++ b) b = true := by
  unfold containsSubstr
  rw [String.data_append]
  apply infixCheck_append_left
  apply infixCheck_of_isPrefixOf
  have h := isPrefixOf_append_self b.data []
  rw [List.append_nil] at h
  exact h

theorem containsSubstr_mid (a b c : String) : containsSubstr (a ++ (b ++ c)) b = true := by
  unfold containsSubstr
  rw [String.data_append, String.data_append]
  exact infixCheck_append_left _ (infixCheck_of_isPrefixOf (isPrefixOf_append_self _ _))

theorem strAppend_left_cancel {a b c : String} (h : a ++ b = a ++ c) : b = c := by
  have h2 : a.data ++ b.data = a.data ++ c.data := by
    rw [← String.data_append, ← String.data_append, h]
  exact String.ext (List.append_cancel_left h2)

theorem strAppend_right_cancel {a b c : String} (h : a ++ c = b ++ c) : a = b := by
  have h2 : a.data ++ c.data = b.data ++ c.data := by
    rw [← String.data_append, ← String.data_append, h]
  exact String.ext (List.append_cancel_right h2)

theorem beq_symm_false {a k : String} (h : (a == k) = false) : (k == a) = false := by
  cases hx : (k == a) with
  | false => rfl
  | true =>
    rw [beq_iff_eq] at hx
    subst hx
    simp at h

theorem lookup_map_replace {α : Type} (k : String) (v : α) :
    ∀ (m : List (String × α)), m.any (fun p => p.1 == k) = true →
      (m.map (fun p => if p.1 == k then (k, v) else p)).lookup k = some v := by
  intro m
  induction m with
  | nil => intro h; simp at h
  | cons p t ih =>
    obtain ⟨a, b⟩ := p
    intro h
    by_cases hp : a = k
    · subst hp
      simp [List.lookup_cons]
    · have hf : (a == k) = false := beq_false_of_ne hp
      have ht : t.any (fun q => q.1 == k) = true := by
        simp only [List.any_cons, hf, Bool.false_or] at h
        exact h
      simpa [hp, List.lookup_cons, beq_symm_false hf] using ih ht

theorem lookup_append_new {α : Type} (k : String) (v : α) :
    ∀ (m : List (String × α)), m.any (fun p => p.1 == k) = false →
      (m ++ [(k, v)]).lookup k = some v := by
  intro m
  induction m with
  | nil => intro _; simp [List.lookup_cons]
  | cons p t ih =>
    obtain ⟨a, b⟩ := p
    intro h
    simp only [List.any_cons, Bool.or_eq_false_iff] at h
    simp [List.lookup_cons, beq_symm_false h.1, ih h.2]

theorem lookup_mapSet_self {α : Type} (m : List (String × α)) (k : String) (v : α) :
    (mapSet m k v).lookup k = some v := by
  unfold mapSet
  cases h : m.any (fun p => p.1 == k) with
  | true =>
    simp only [h, if_true]
    exact lookup_map_replace k v m h
  | false =>
    simp only [h, Bool.false_eq_true, if_false]
    exact lookup_append_new k v m h

theorem lookup_mapDelete_self {α : Type} (m : List (String × α)) (k : String) :
    (mapDelete m k).lookup k = none := by
  unfold mapDelete
  induction m with
  | nil => rfl
  | cons p t ih =>
    obtain ⟨a, b⟩ := p
    by_cases hp : a = k
    · subst hp
      simpa [List.filter_cons] using ih
    · have hf : (a == k) = false := beq_false_of_ne hp
      simpa [List.filter_cons, hf, List.lookup_cons, beq_symm_false hf] using ih

theorem lookup_filter_snd (q : TokenCacheEntry → Bool) :
    ∀ (m : List (String × TokenCacheEntry)) (k : String) (e : TokenCacheEntry),
      (m.filter (fun p => q p.2)).lookup k = some e → q e = true := by
  intro m
  induction m with
  | nil => intro k e h; simp at h
  | cons p t ih =>
    obtain ⟨a, b⟩ := p
    intro k e h
    by_cases hq : q b = true
    · rw [List.filter_cons_of_pos (by simpa using hq)] at h
      by_cases hk : a = k
      · subst hk
        simp [List.lookup_cons] at h
        rw [← h]
        exact hq
      · simp only [List.lookup_cons, beq_symm_false (beq_false_of_ne hk)] at h
        exact ih k e h
    · rw [List.filter_cons_of_neg (by simpa using hq)] at h
      exact ih k e h

theorem statsLoop_spec (now : Int) :
    ∀ l : List (String × TokenCacheEntry),
      (statsLoop now l).1 + (statsLoop now l).2.1 = l.length ∧
      (statsLoop now l).2.2.1 + (statsLoop now l).2.2.2 = l.length := by
  intro l
  induction l with
  | nil => simp [statsLoop]
  | cons p t ih =>
    obtain ⟨ih1, ih2⟩ := ih
    obtain ⟨a, e⟩ := p
    cases he : e.type <;> by_cases hx : e.expires ≤ now <;>
      simp [statsLoop, he, hx] <;> omega

/-! Claim theorems. -/

/-- C2: `get(key)` and `has(key)` never surface an entry whose expiry instant
has passed: a read that finds an expired entry deletes it from the store and
returns absent/false, and the cleanup sweep (`cleanupExpiredTokens`, reachable
via `cleanupNow`) removes every entry with `expires <= now` from the store. -/
theorem c2_expired_entries_never_surfaced (now : Int) (st : TokenCacheManager) (key : String) :
    (∀ e, (TokenCacheManager.get now st key).1 = some e → e.expires > now) ∧
    ((TokenCacheManager.has now st key).1 = true →
      ∃ e, st.cache.lookup key = some e ∧ e.expires > now) ∧
    (∀ e, st.cache.lookup key = some e → e.expires ≤ now →
      (TokenCacheManager.get now st key).1 = none ∧
      (TokenCacheManager.get now st key).2.cache.lookup key = none ∧
      (TokenCacheManager.has now st key).1 = false ∧
      (TokenCacheManager.has now st key).2.cache.lookup key = none) ∧
    (∀ p, p ∈ (TokenCacheManager.cleanupNow now st).cache → p.2.expires > now) ∧
    (∀ k e, (TokenCacheManager.cleanupNow now st).cache.lookup k = some e →
      e.expires > now) := by
  refine ⟨?_, ?_, ?_, ?_, ?_⟩
  · intro e he
    unfold TokenCacheManager.get at he
    cases hl : st.cache.lookup key with
    | none => rw [hl] at he; simp at he
    | some e0 =>
      rw [hl] at he
      by_cases hx : e0.expires ≤ now
      · simp [hx] at he
      · simp [hx] at he
        rw [← he]
        omega
  · intro hh
    unfold TokenCacheManager.has at hh
    cases hl : st.cache.lookup key with
    | none => rw [hl] at hh; simp at hh
    | some e0 =>
      rw [hl] at hh
      by_cases hx : e0.expires ≤ now
      · simp [hx] at hh
      · exact ⟨e0, rfl, by omega⟩
  · intro e hl hx
    unfold TokenCacheManager.get TokenCacheManager.has
    rw [hl]
    simp [hx, lookup_mapDelete_self]
  · intro p hp
    unfold TokenCacheManager.cleanupNow TokenCacheManager.cleanupExpiredTokens at hp
    simp only [List.mem_filter] at hp
    have h2 := hp.2
    simp at h2
    omega
  · intro k e hl
    unfold TokenCacheManager.cleanupNow TokenCacheManager.cleanupExpiredTokens at hl
    have hq := lookup_filter_snd (fun x => !decide (x.expires ≤ now)) st.cache k e hl
    simp at hq
    omega

/-- C2 witness: a concrete expired entry (expiry 5, read at time 10) is neither
returned by `get` nor seen by `has`, is purged by the read, and is removed by
the sweep. -/
theorem c2_witness :
    (({ cache := [("k", { token := "t", expires := 5, type := TokenType.oauth })],
        keyGenerators := [], cacheConfigs := [] } : TokenCacheManager).cache.lookup ("k") =
      some { token := "t", expires := 5, type := TokenType.oauth } ∧
      (5 : Int) ≤ 10) ∧
    ((TokenCacheManager.get 10
        { cache := [("k", { token := "t", expires := 5, type := TokenType.oauth })],
          keyGenerators := [], cacheConfigs := [] } ("k")).1 = none ∧
      (TokenCacheManager.get 10
        { cache := [("k", { token := "t", expires := 5, type := TokenType.oauth })],
          keyGenerators := [], cacheConfigs := [] } ("k")).2.cache.lookup ("k") = none ∧
      (TokenCacheManager.has 10
        { cache := [("k", { token := "t", expires := 5, type := TokenType.oauth })],
          keyGenerators := [], cacheConfigs := [] } ("k")).1 = false ∧
      (TokenCacheManager.has 10
        { cache := [("k", { token := "t", expires := 5, type := TokenType.oauth })],
          keyGenerators := [], cacheConfigs := [] } ("k")).2.cache.lookup ("k") = none) :=
  ⟨⟨rfl, by decide⟩,
    (c2_expired_entries_never_surfaced 10
      { cache := [("k", { token := "t", expires := 5, type := TokenType.oauth })],
        keyGenerators := [], cacheConfigs := [] } ("k")).2.2.1
      { token := "t", expires := 5, type := TokenType.oauth } rfl (by decide)⟩

/-- C3: `createOAuthEntry` computes expiry `now + max(expiresInSeconds*1000,
minCacheDuration) - bufferTime` for every credential type; with the default
(and the registered Viridem) config, `expiresInSeconds = 3600` yields
`now + 3600000 - 60000`, and the expiry never drops below
`now + 300000 - 60000`, even at `expiresInSeconds = 1`. -/
theorem c3_createOAuthEntry_expiry (st : TokenCacheManager) (credentialType token : String)
    (e now : Int) :
    ((st.createOAuthEntry credentialType token e now).expires =
      now + max (e * 1000) (st.getCacheConfig credentialType).minCacheDuration -
        (st.getCacheConfig credentialType).bufferTime) ∧
    ((st.createOAuthEntry credentialType token e now).token = token ∧
      (st.createOAuthEntry credentialType token e now).type = TokenType.oauth) ∧
    (TokenCacheManager.empty.createOAuthEntry credentialType token 3600 now).expires =
      now + 3600000 - 60000 ∧
    (viridemState0.createOAuthEntry viridemType token 3600 now).expires =
      now + 3600000 - 60000 ∧
    ((TokenCacheManager.empty.createOAuthEntry credentialType token e now).expires ≥
      now + 300000 - 60000) ∧
    (TokenCacheManager.empty.createOAuthEntry credentialType token 1 now).expires =
      now + 300000 - 60000 := by
  refine ⟨rfl, ⟨rfl, rfl⟩, ?_, ?_, ?_, ?_⟩
  · show now + max ((3600 : Int) * 1000) (300000 : Int) - 60000 = now + 3600000 - 60000
    norm_num
  · show now + max ((3600 : Int) * 1000)
      (viridemState0.getCacheConfig viridemType).minCacheDuration -
      (viridemState0.getCacheConfig viridemType).bufferTime = now + 3600000 - 60000
    norm_num [viridemState0, TokenCacheManager.getCacheConfig, TokenCacheManager.registerCacheConfig, TokenCacheManager.registerKeyGenerator, TokenCacheManager.empty, mapSet, CacheConfig.mergeOver, DEFAULT_CACHE_CONFIG]
  · show now + max (e * 1000) (300000 : Int) - 60000 ≥ now + 300000 - 60000
    have hm : (300000 : Int) ≤ max (e * 1000) 300000 := le_max_right _ _
    omega
  · show now + max ((1 : Int) * 1000) (300000 : Int) - 60000 = now + 300000 - 60000
    norm_num

/-- C10: `getStats` never modifies the cache (the manager state it returns is
the input state, expired entries included), and its counters satisfy
`total = active + expired = size()` with the per-kind breakdown summing to
`total`. -/
theorem c10_getStats_pure_and_consistent (now : Int) (st : TokenCacheManager) :
    (TokenCacheManager.getStats now st).2 = st ∧
    (TokenCacheManager.getStats now st).1.total =
      (TokenCacheManager.getStats now st).1.active +
        (TokenCacheManager.getStats now st).1.expired ∧
    (TokenCacheManager.getStats now st).1.total = st.size ∧
    (TokenCacheManager.getStats now st).1.typesOauth +
        (TokenCacheManager.getStats now st).1.typesBasic =
      (TokenCacheManager.getStats now st).1.total := by
  obtain ⟨h1, h2⟩ := statsLoop_spec now st.cache
  refine ⟨rfl, ?_, rfl, ?_⟩
  · show st.cache.length = (statsLoop now st.cache).2.1 + (statsLoop now st.cache).1
    omega
  · show (statsLoop now st.cache).2.2.1 + (statsLoop now st.cache).2.2.2 = st.cache.length
    omega

theorem generateKey_viridemState0 (c : Credentials) :
    viridemState0.generateKey viridemType c = viridemKeyGenerator c := rfl

/-- Concrete credential records used by counterexamples and witnesses. -/
def credsA : Credentials :=
  { baseUrl := some ("http://v"), username := some ("u1"), password := some ("p"),
    client_id := some ("cid"), client_secret := some ("cs"), clientId := some ("CID"),
    user := none }

def credsB : Credentials := { credsA with username := some ("u2") }

def credsC : Credentials := { credsA with clientId := none }

def credsD : Credentials := { credsC with username := some ("u2") }

/-- C7 counterexample: two records that differ only in `username` (both
truthy) derive the same key under the registered `ViridemOAuth2API`
generator, because it ignores `username` whenever `clientId` and `baseUrl`
are both truthy. -/
theorem c7_counterexample :
    viridemState0.generateKey viridemType credsA =
      viridemState0.generateKey viridemType credsB ∧
    credsA.username ≠ credsB.username ∧ credsA.baseUrl = credsB.baseUrl ∧
    credsA.password = credsB.password ∧ credsA.client_id = credsB.client_id ∧
    credsA.client_secret = credsB.client_secret ∧ credsA.clientId = credsB.clientId ∧
    credsA.user = credsB.user := by
  refine ⟨rfl, ?_, rfl, rfl, rfl, rfl, rfl, rfl⟩
  decide

/-- C7 (amended): key derivation is deterministic; records that differ only in
`username`, with both usernames truthy, derive different keys under the
registered generator provided `clientId` and `baseUrl` are not both truthy
(in which case the generator ignores the username), and always derive
different keys under `defaultKeyGenerator`. -/
theorem c7_key_derivation_amended (c1 c2 : Credentials)
    (hb : c1.baseUrl = c2.baseUrl) (hpw : c1.password = c2.password)
    (hci : c1.client_id = c2.client_id) (hcs : c1.client_secret = c2.client_secret)
    (hcl : c1.clientId = c2.clientId) (hu : c1.user = c2.user)
    (h1 : truthy c1.username = true) (h2 : truthy c2.username = true)
    (hne : c1.username ≠ c2.username)
    (hno : ¬(truthy c1.clientId = true ∧ truthy c1.baseUrl = true)) :
    (∀ (st : TokenCacheManager) (t : String) (d1 d2 : Credentials), d1 = d2 →
      st.generateKey t d1 = st.generateKey t d2) ∧
    viridemState0.generateKey viridemType c1 ≠ viridemState0.generateKey viridemType c2 ∧
    TokenCacheManager.defaultKeyGenerator c1 ≠ TokenCacheManager.defaultKeyGenerator c2 := by
  obtain ⟨s1, hs1⟩ : ∃ s, c1.username = some s := by
    cases hc : c1.username with
    | none => rw [hc] at h1; simp [truthy] at h1
    | some s => exact ⟨s, rfl⟩
  obtain ⟨s2, hs2⟩ : ∃ s, c2.username = some s := by
    cases hc : c2.username with
    | none => rw [hc] at h2; simp [truthy] at h2
    | some s => exact ⟨s, rfl⟩
  have hs1e : (s1 == "") = false := by
    rw [hs1] at h1
    simpa [truthy] using h1
  have hs2e : (s2 == "") = false := by
    rw [hs2] at h2
    simpa [truthy] using h2
  have hns : s1 ≠ s2 := by
    intro h
    exact hne (by rw [hs1, hs2, h])
  have hcond : (truthy c1.clientId && truthy c1.baseUrl) = false := by
    cases hA : truthy c1.clientId <;> cases hB : truthy c1.baseUrl <;> simp_all
  have hcond2 : (truthy c2.clientId && truthy c2.baseUrl) = false := by
    rw [← hcl, ← hb]
    exact hcond
  refine ⟨fun st t d1 d2 hd => by rw [hd], ?_, ?_⟩
  · rw [generateKey_viridemState0, generateKey_viridemState0]
    unfold viridemKeyGenerator
    rw [hcond, hcond2]
    simp only [Bool.false_eq_true, if_false]
    rw [hb]
    intro heq
    have e1 := strAppend_right_cancel heq
    have e2 := strAppend_right_cancel e1
    have e3 := strAppend_left_cancel e2
    rw [hs1, hs2] at e3
    simp [jsOr, hs1e, hs2e] at e3
    exact hns e3
  · unfold TokenCacheManager.defaultKeyGenerator
    rw [hb, hu]
    intro heq
    have e1 := strAppend_left_cancel heq
    rw [hs1, hs2] at e1
    simp [jsOr, hs1e, hs2e] at e1
    exact hns e1

/-- C7 witness: with `clientId` absent the registered generator keys on
username and base URL, so the two records get distinct keys. -/
theorem c7_witness :
    (credsC.baseUrl = credsD.baseUrl ∧ truthy credsC.username = true ∧
      truthy credsD.username = true ∧ credsC.username ≠ credsD.username ∧
      ¬(truthy credsC.clientId = true ∧ truthy credsC.baseUrl = true)) ∧
    viridemState0.generateKey viridemType credsC ≠
      viridemState0.generateKey viridemType credsD :=
  ⟨⟨rfl, by decide, by decide, by decide, by decide⟩,
    (c7_key_derivation_amended credsC credsD rfl rfl rfl rfl rfl rfl (by decide) (by decide)
      (by decide) (by decide)).2.1⟩

/-- C8: formatting the authorization header returns the value unchanged when
it starts with `Basic ` or `Bearer `, prefixes `Bearer ` otherwise, and is
therefore idempotent. -/
theorem c8_formatAuthHeader_spec (raw : String) :
    ((strStartsWith raw ("Basic ") = true ∨ strStartsWith raw ("Bearer ") = true) →
      ViridemOAuth2API.formatAuthHeader raw = raw) ∧
    ((strStartsWith raw ("Basic ") = false ∧ strStartsWith raw ("Bearer ") = false) →
      ViridemOAuth2API.formatAuthHeader raw = "Bearer " ++ raw) ∧
    ViridemOAuth2API.formatAuthHeader (ViridemOAuth2API.formatAuthHeader raw) =
      ViridemOAuth2API.formatAuthHeader raw := by
  have hb : ∀ s : String, strStartsWith ("Bearer " ++ s) ("Bearer ") = true := by
    intro s
    unfold strStartsWith
    rw [String.data_append]
    exact isPrefixOf_append_self _ _
  unfold ViridemOAuth2API.formatAuthHeader
  cases h1 : strStartsWith raw ("Basic ") <;> cases h2 : strStartsWith raw ("Bearer ") <;>
    simp [h1, h2, hb]

/-- C8 witness: a bare token gets the `Bearer ` prefix. -/
theorem c8_witness :
    (strStartsWith ("abc") ("Basic ") = false ∧ strStartsWith ("abc") ("Bearer ") = false) ∧
    ViridemOAuth2API.formatAuthHeader ("abc") = "Bearer " ++ "abc" :=
  ⟨⟨by decide, by decide⟩, (c8_formatAuthHeader_spec ("abc")).2.1 ⟨by decide, by decide⟩⟩

/-- The Basic authorization header value `Basic base64(username:password)`
built by both resolvers. -/
def basicHeaderOf (c : Credentials) : String :=
  "Basic " ++ b64encode (jsTemplate c.username ++ ":" ++ jsTemplate c.password)

/-! Characterization lemmas for the resolver paths. -/

theorem getAccessToken_cache_hit (env : NetEnv) (now : Int) (c : Credentials)
    (st : TokenCacheManager) (e : TokenCacheEntry)
    (hl : st.cache.lookup (st.generateKey viridemType c) = some e)
    (hf : now < e.expires) :
    ViridemOAuth2API.getAccessToken env now c st = (Except.ok e.token, st, []) := by
  unfold ViridemOAuth2API.getAccessToken TokenCacheManager.getByCredentials
    TokenCacheManager.get
  rw [hl]
  have hx : ¬ e.expires ≤ now := by omega
  simp [hx, hf]

theorem getAccessToken_cold (env : NetEnv) (now : Int) (c : Credentials)
    (st : TokenCacheManager)
    (h : st.cache.lookup (st.generateKey viridemType c) = none) :
    ViridemOAuth2API.getAccessToken env now c st =
      ViridemOAuth2API.authSequence env now c st := by
  unfold ViridemOAuth2API.getAccessToken TokenCacheManager.getByCredentials
    TokenCacheManager.get
  rw [h]

theorem getAccessToken_expired_entry (env : NetEnv) (now : Int) (c : Credentials)
    (st : TokenCacheManager) (e : TokenCacheEntry)
    (hl : st.cache.lookup (st.generateKey viridemType c) = some e)
    (hx : e.expires ≤ now) :
    ViridemOAuth2API.getAccessToken env now c st =
      ViridemOAuth2API.authSequence env now c
        { st with cache := mapDelete st.cache (st.generateKey viridemType c) } := by
  unfold ViridemOAuth2API.getAccessToken TokenCacheManager.getByCredentials
    TokenCacheManager.get
  rw [hl]
  simp [hx]

theorem authSequence_validation_fail (env : NetEnv) (now : Int) (c : Credentials)
    (st : TokenCacheManager) (h : missingFields c ≠ []) :
    ViridemOAuth2API.authSequence env now c st =
      (Except.error ("Missing required credentials: " ++
        String.intercalate (", ") (missingFields c)), st, []) := by
  unfold ViridemOAuth2API.authSequence
  have he : (missingFields c).isEmpty = false := by
    cases hm : missingFields c with
    | nil => exact absurd hm h
    | cons a t => rfl
  simp [he]

theorem authSequence_oauth_ok (env : NetEnv) (now : Int) (c : Credentials)
    (st st2 : TokenCacheManager) (tok : String)
    (h2 : missingFields c = [])
    (h3 : ViridemOAuth2API.tryOAuth2Authentication env c now st = Except.ok (tok, st2)) :
    ViridemOAuth2API.authSequence env now c st =
      (Except.ok tok, st2, [NetCall.oauthToken]) := by
  unfold ViridemOAuth2API.authSequence
  simp [h2, h3]

theorem authSequence_basic_ok (env : NetEnv) (now : Int) (c : Credentials)
    (st st2 : TokenCacheManager) (om hdr : String)
    (h2 : missingFields c = [])
    (h3 : ViridemOAuth2API.tryOAuth2Authentication env c now st = Except.error om)
    (h4 : ViridemOAuth2API.tryBasicAuthentication env c now st = Except.ok (hdr, st2)) :
    ViridemOAuth2API.authSequence env now c st =
      (Except.ok hdr, st2, [NetCall.oauthToken, NetCall.basicProbe]) := by
  unfold ViridemOAuth2API.authSequence
  simp [h2, h3, h4]

theorem authSequence_both_fail (env : NetEnv) (now : Int) (c : Credentials)
    (st : TokenCacheManager) (om bm : String)
    (h2 : missingFields c = [])
    (h3 : ViridemOAuth2API.tryOAuth2Authentication env c now st = Except.error om)
    (h4 : ViridemOAuth2API.tryBasicAuthentication env c now st = Except.error bm) :
    ViridemOAuth2API.authSequence env now c st =
      (Except.error ("All authentication methods failed. OAuth2: " ++ om ++
        ". Basic Auth: " ++ bm), st, [NetCall.oauthToken, NetCall.basicProbe]) := by
  unfold ViridemOAuth2API.authSequence
  simp [h2, h3, h4]

theorem tryOAuth2_success (env : NetEnv) (c : Credentials) (now : Int)
    (st : TokenCacheManager) (resp : OAuthHttpResponse) (data : OAuth2TokenResponse)
    (tok : String)
    (h1 : env.oauthFetch = Except.ok resp) (h2 : resp.ok = true)
    (h3 : resp.json = Except.ok data) (h4 : data.access_token = some tok)
    (h5 : (tok == "") = false) (h6 : truthy data.error = false) :
    ViridemOAuth2API.tryOAuth2Authentication env c now st =
      Except.ok (tok, st.setByCredentials viridemType c
        (st.createOAuthEntry viridemType tok (jsOrInt data.expires_in 3600) now)) := by
  have h7 : truthy (some tok) = true := by simp [truthy, h5]
  unfold ViridemOAuth2API.tryOAuth2Authentication
  rw [h1]
  simp [h2, h3, h4, h6, h7]

theorem tryBasic_success (env : NetEnv) (c : Credentials) (now : Int)
    (st : TokenCacheManager) (resp : BasicHttpResponse)
    (h1 : env.basicFetch = Except.ok resp) (h2 : resp.ok = true) :
    ViridemOAuth2API.tryBasicAuthentication env c now st =
      Except.ok (basicHeaderOf c,
        st.setByCredentials viridemType c
          (st.createBasicAuthEntry viridemType (basicHeaderOf c) now)) := by
  unfold ViridemOAuth2API.tryBasicAuthentication basicHeaderOf
  rw [h1]
  simp [h2]

/-- C4: a fresh cache entry short-circuits `getAccessToken` with no network
call; on a cold cache, a successful OAuth2 response with token `abc` and
`expires_in = 3600` yields `abc` (formatted `Bearer abc`) with exactly one
network exchange, and a second call within the buffer window returns `abc`
again from the cache with no further network exchange. -/
theorem c4_cache_behaviour (env env2 : NetEnv) (now now2 : Int)
    (credentials : Credentials) (st : TokenCacheManager)
    (resp : OAuthHttpResponse) (data : OAuth2TokenResponse)
    (hcold : st.cache.lookup (st.generateKey viridemType credentials) = none)
    (hval : missingFields credentials = [])
    (hcfg : st.getCacheConfig viridemType = DEFAULT_CACHE_CONFIG)
    (h1 : env.oauthFetch = Except.ok resp) (h2 : resp.ok = true)
    (h3 : resp.json = Except.ok data)
    (h4 : data.access_token = some ("abc")) (h5 : data.expires_in = some 3600)
    (h6 : data.error = none)
    (hwin : now2 < now + 3540000) :
    (∀ (env' : NetEnv) (st' : TokenCacheManager) (e : TokenCacheEntry),
      st'.cache.lookup (st'.generateKey viridemType credentials) = some e →
      now < e.expires →
      ViridemOAuth2API.getAccessToken env' now credentials st' =
        (Except.ok e.token, st', [])) ∧
    (ViridemOAuth2API.getAccessToken env now credentials st).1 = Except.ok ("abc") ∧
    (ViridemOAuth2API.getAccessToken env now credentials st).2.2 = [NetCall.oauthToken] ∧
    ViridemOAuth2API.formatAuthHeader ("abc") = "Bearer abc" ∧
    ViridemOAuth2API.getAccessToken env2 now2 credentials
        (ViridemOAuth2API.getAccessToken env now credentials st).2.1 =
      (Except.ok ("abc"),
        (ViridemOAuth2API.getAccessToken env now credentials st).2.1, []) := by
  have htok : ViridemOAuth2API.tryOAuth2Authentication env credentials now st =
      Except.ok ("abc", st.setByCredentials viridemType credentials
        (st.createOAuthEntry viridemType ("abc") (jsOrInt data.expires_in 3600) now)) :=
    tryOAuth2_success env credentials now st resp data ("abc") h1 h2 h3 h4 (by decide)
      (by rw [h6]; rfl)
  have hr : ViridemOAuth2API.getAccessToken env now credentials st =
      (Except.ok ("abc"), st.setByCredentials viridemType credentials
        (st.createOAuthEntry viridemType ("abc") (jsOrInt data.expires_in 3600) now),
        [NetCall.oauthToken]) :=
    (getAccessToken_cold env now credentials st hcold).trans
      (authSequence_oauth_ok env now credentials st _ ("abc") hval htok)
  have hexp : (st.createOAuthEntry viridemType ("abc") (jsOrInt data.expires_in 3600)
      now).expires = now + 3540000 := by
    unfold TokenCacheManager.createOAuthEntry
    rw [hcfg, h5]
    show now + max ((3600 : Int) * 1000) (300000 : Int) - 60000 = now + 3540000
    have hm : max ((3600 : Int) * 1000) (300000 : Int) = 3600000 := by norm_num
    rw [hm]
    ring
  rw [hr]
  refine ⟨fun env' st' e hl hf => getAccessToken_cache_hit env' now credentials st' e hl hf,
    rfl, rfl, by decide, ?_⟩
  exact getAccessToken_cache_hit env2 now2 credentials
    (st.setByCredentials viridemType credentials
      (st.createOAuthEntry viridemType ("abc") (jsOrInt data.expires_in 3600) now))
    (st.createOAuthEntry viridemType ("abc") (jsOrInt data.expires_in 3600) now)
    (lookup_mapSet_self st.cache (st.generateKey viridemType credentials) _)
    (by rw [hexp]; omega)

/-! Legacy-resolver characterization lemmas. -/

theorem catchBlock_calls (env : NetEnv) (now : Int) (c : Credentials)
    (tc : List (String × LegacyEntry)) (k m : String) :
    (ViridemOauth2.catchBlock env now c tc k m).2.2 =
      [NetCall.oauthToken, NetCall.basicProbe] := by
  unfold ViridemOauth2.catchBlock
  cases env.basicFetch with
  | error e => rfl
  | ok r => cases hr : r.ok <;> simp [hr]

theorem tryBlock_calls_ne_nil (env : NetEnv) (now : Int) (c : Credentials)
    (tc : List (String × LegacyEntry)) (k : String) :
    (ViridemOauth2.tryBlock env now c tc k).2.2 ≠ [] := by
  unfold ViridemOauth2.tryBlock
  cases ho : env.oauthFetch with
  | error m => rw [catchBlock_calls]; decide
  | ok r =>
    cases hok : r.ok with
    | false => simp [hok, catchBlock_calls]
    | true =>
      cases hj : r.json with
      | error m => simp [hok, hj, catchBlock_calls]
      | ok d =>
        cases herr : (truthy d.error || !truthy d.access_token) with
        | true => simp [hok, hj, herr, catchBlock_calls]
        | false => simp [hok, hj, herr]

theorem legacy_getAccessToken_stale (env : NetEnv) (now : Int) (c : Credentials)
    (tc : List (String × LegacyEntry))
    (hstale : ∀ e, tc.lookup (legacyCacheKey c) = some e → e.expires ≤ now)
    (t1 : truthy c.client_id = true) (t2 : truthy c.client_secret = true)
    (t3 : truthy c.username = true) (t4 : truthy c.password = true) :
    (ViridemOauth2.getAccessToken env now c tc).2.2 ≠ [] := by
  unfold ViridemOauth2.getAccessToken
  cases hl : tc.lookup (legacyCacheKey c) with
  | none =>
    simp [hl, t1, t2, t3, t4]
    exact tryBlock_calls_ne_nil env now c tc (legacyCacheKey c)
  | some e0 =>
    have hx := hstale e0 hl
    have hgt : ¬ e0.expires > now := by omega
    simp [hl, hgt, t1, t2, t3, t4]
    exact tryBlock_calls_ne_nil env now c tc (legacyCacheKey c)

theorem legacy_validation_fail (env : NetEnv) (now : Int) (c : Credentials)
    (tc : List (String × LegacyEntry))
    (hlc : tc.lookup (legacyCacheKey c) = none)
    (hsec : truthy c.client_secret = false) :
    ViridemOauth2.getAccessToken env now c tc = (Except.error legacyMissingMsg, tc, []) := by
  unfold ViridemOauth2.getAccessToken
  simp [hlc, hsec]

theorem legacy_both_fail (env : NetEnv) (now : Int) (c : Credentials)
    (tc : List (String × LegacyEntry)) (om bm : String)
    (hlc : tc.lookup (legacyCacheKey c) = none)
    (t1 : truthy c.client_id = true) (t2 : truthy c.client_secret = true)
    (t3 : truthy c.username = true) (t4 : truthy c.password = true)
    (ho : env.oauthFetch = Except.error om) (hb : env.basicFetch = Except.error bm) :
    ViridemOauth2.getAccessToken env now c tc =
      (Except.error ("Authentication failed: OAuth2 failed (" ++ om ++
        "), Basic Auth also failed"), tc, [NetCall.oauthToken, NetCall.basicProbe]) := by
  unfold ViridemOauth2.getAccessToken ViridemOauth2.tryBlock ViridemOauth2.catchBlock
  simp [hlc, t1, t2, t3, t4, ho, hb]

theorem legacy_oauth_success (env : NetEnv) (now : Int) (c : Credentials)
    (tc : List (String × LegacyEntry)) (resp : OAuthHttpResponse)
    (data : OAuth2TokenResponse) (tok : String)
    (hlc : tc.lookup (legacyCacheKey c) = none)
    (t1 : truthy c.client_id = true) (t2 : truthy c.client_secret = true)
    (t3 : truthy c.username = true) (t4 : truthy c.password = true)
    (h1 : env.oauthFetch = Except.ok resp) (h2 : resp.ok = true)
    (h3 : resp.json = Except.ok data) (h4 : data.access_token = some tok)
    (h5 : (tok == "") = false) (h6 : truthy data.error = false) :
    ViridemOauth2.getAccessToken env now c tc =
      (Except.ok tok, mapSet tc (legacyCacheKey c)
        { token := tok, expires := now + jsOrInt data.expires_in 3600 * 1000 - 60000 },
        [NetCall.oauthToken]) := by
  have h7 : truthy (some tok) = true := by simp [truthy, h5]
  unfold ViridemOauth2.getAccessToken ViridemOauth2.tryBlock
  rw [h1]
  simp [hlc, t1, t2, t3, t4, h2, h3, h4, h6, h7]

/-! Concrete fixtures for the resolver scenarios. -/

def credsFull : Credentials :=
  { baseUrl := some ("http://v"), username := some ("user"), password := some ("pass"),
    client_id := some ("cid"), client_secret := some ("cs"), clientId := none, user := none }

def credsNoSecret : Credentials := { credsFull with client_secret := none }

def oauthRespOk : OAuthHttpResponse :=
  { ok := true, status := 200, statusText := "OK", text := "",
    json := Except.ok
      { access_token := some ("abc"), expires_in := some 3600,
        error := none, error_description := none } }

def envSuccess : NetEnv :=
  { oauthFetch := Except.ok oauthRespOk,
    basicFetch := Except.ok { ok := true, status := 200, statusText := "OK", text := "" } }

def env401 : NetEnv :=
  { oauthFetch := Except.ok
      { ok := false, status := 401, statusText := "Unauthorized",
        text := "invalid_client", json := Except.error ("unparsed") },
    basicFetch := Except.ok { ok := true, status := 200, statusText := "OK", text := "" } }

def envBothFail : NetEnv :=
  { oauthFetch := Except.error ("oauth boom"),
    basicFetch := Except.error ("basic-reason-xyz") }

def stExpired : TokenCacheManager :=
  { viridemState0 with cache :=
      [(viridemKeyGenerator credsFull,
        { token := "tok", expires := 5, type := TokenType.oauth })] }

/-- C4 witness: the cold-cache scenario at `now = 0` with the registered
state, followed by a second call at `now2 = 1000`. -/
theorem c4_witness :
    (viridemState0.cache.lookup (viridemState0.generateKey viridemType credsFull) = none ∧
      missingFields credsFull = [] ∧
      viridemState0.getCacheConfig viridemType = DEFAULT_CACHE_CONFIG ∧
      (1000 : Int) < 0 + 3540000) ∧
    ((ViridemOAuth2API.getAccessToken envSuccess 0 credsFull viridemState0).1 =
        Except.ok ("abc") ∧
      (ViridemOAuth2API.getAccessToken envSuccess 0 credsFull viridemState0).2.2 =
        [NetCall.oauthToken] ∧
      ViridemOAuth2API.formatAuthHeader ("abc") = "Bearer abc" ∧
      ViridemOAuth2API.getAccessToken envSuccess 1000 credsFull
          (ViridemOAuth2API.getAccessToken envSuccess 0 credsFull viridemState0).2.1 =
        (Except.ok ("abc"),
          (ViridemOAuth2API.getAccessToken envSuccess 0 credsFull viridemState0).2.1, [])) := by
  have h := c4_cache_behaviour envSuccess envSuccess 0 1000 credsFull viridemState0
    oauthRespOk
    { access_token := some ("abc"), expires_in := some 3600,
      error := none, error_description := none }
    rfl (by decide) (by decide) rfl rfl rfl rfl rfl rfl (by decide)
  exact ⟨⟨rfl, by decide, by decide, by decide⟩, h.2.1, h.2.2.1, h.2.2.2.1, h.2.2.2.2⟩

/-- C5: when the OAuth2 attempt fails and the Basic Auth probe returns 2xx,
the resolver returns `Basic base64(username:password)` and writes a cache
entry of kind `basic` expiring at `now + defaultTokenExpiry` (3600000 ms under
the default and registered config). -/
theorem c5_basic_auth_fallback (env : NetEnv) (now : Int) (credentials : Credentials)
    (st : TokenCacheManager) (om : String) (resp : BasicHttpResponse)
    (hcold : st.cache.lookup (st.generateKey viridemType credentials) = none)
    (hval : missingFields credentials = [])
    (h3 : ViridemOAuth2API.tryOAuth2Authentication env credentials now st = Except.error om)
    (h4 : env.basicFetch = Except.ok resp) (h5 : resp.ok = true)
    (hexp : (st.getCacheConfig viridemType).defaultTokenExpiry = 3600000) :
    ViridemOAuth2API.getAccessToken env now credentials st =
      (Except.ok (basicHeaderOf credentials),
        st.setByCredentials viridemType credentials
          (st.createBasicAuthEntry viridemType (basicHeaderOf credentials) now),
        [NetCall.oauthToken, NetCall.basicProbe]) ∧
    (ViridemOAuth2API.getAccessToken env now credentials st).2.1.cache.lookup
        (st.generateKey viridemType credentials) =
      some { token := basicHeaderOf credentials, expires := now + 3600000,
             type := TokenType.basic } := by
  have hb := tryBasic_success env credentials now st resp h4 h5
  have hr := (getAccessToken_cold env now credentials st hcold).trans
    (authSequence_basic_ok env now credentials st _ om _ hval h3 hb)
  refine ⟨hr, ?_⟩
  rw [hr]
  show (mapSet st.cache (st.generateKey viridemType credentials) _).lookup
    (st.generateKey viridemType credentials) = _
  rw [lookup_mapSet_self]
  simp [TokenCacheManager.createBasicAuthEntry, hexp]

/-- C5 witness: OAuth2 endpoint answers HTTP 401, the probe answers HTTP 200,
with the registered state at `now = 0`. -/
theorem c5_witness :
    (viridemState0.cache.lookup (viridemState0.generateKey viridemType credsFull) = none ∧
      missingFields credsFull = [] ∧
      ViridemOAuth2API.tryOAuth2Authentication env401 credsFull 0 viridemState0 =
        Except.error ("HTTP 401: Unauthorized. invalid_client") ∧
      (viridemState0.getCacheConfig viridemType).defaultTokenExpiry = 3600000) ∧
    (ViridemOAuth2API.getAccessToken env401 0 credsFull viridemState0).2.1.cache.lookup
        (viridemState0.generateKey viridemType credsFull) =
      some { token := basicHeaderOf credsFull, expires := 0 + 3600000,
             type := TokenType.basic } :=
  ⟨⟨rfl, by decide, rfl, rfl⟩,
    (c5_basic_auth_fallback env401 0 credsFull viridemState0
      ("HTTP 401: Unauthorized. invalid_client")
      { ok := true, status := 200, statusText := "OK", text := "" }
      rfl (by decide) rfl rfl rfl rfl).2⟩

/-- C6 counterexample: for a record missing only `client_secret`, the legacy
resolver's validation failure reports a fixed message that also names
`username` (which is present), so the message does not list exactly the
missing field names. -/
theorem c6_counterexample :
    ViridemOauth2.getAccessToken envSuccess 0 credsNoSecret [] =
      (Except.error legacyMissingMsg, [], []) ∧
    legacyMissingMsg ≠ "Missing required credentials: client_secret" ∧
    containsSubstr legacyMissingMsg ("username") = true ∧
    truthy credsNoSecret.username = true := by
  refine ⟨rfl, by decide, by decide, by decide⟩

/-- C6 (amended): with no fresh cache entry, `ViridemOAuth2API.getAccessToken`
fails before any network call with a message listing exactly the missing
required fields; the legacy resolver also fails with zero network calls when
`client_secret` is falsy, but with a fixed message naming all four checked
fields (and it does not check `baseUrl`). -/
theorem c6_validation_amended (env : NetEnv) (now : Int) (credentials : Credentials)
    (st : TokenCacheManager) (cache : List (String × LegacyEntry))
    (hcold : st.cache.lookup (st.generateKey viridemType credentials) = none)
    (hmiss : missingFields credentials ≠ [])
    (hlc : cache.lookup (legacyCacheKey credentials) = none)
    (hsec : truthy credentials.client_secret = false) :
    ViridemOAuth2API.getAccessToken env now credentials st =
      (Except.error ("Missing required credentials: " ++
        String.intercalate (", ") (missingFields credentials)), st, []) ∧
    ViridemOauth2.getAccessToken env now credentials cache =
      (Except.error legacyMissingMsg, cache, []) :=
  ⟨(getAccessToken_cold env now credentials st hcold).trans
      (authSequence_validation_fail env now credentials st hmiss),
    legacy_validation_fail env now credentials cache hlc hsec⟩

/-- C6 witness: the record missing only `client_secret`, on the registered
state and a cold legacy cache: the new resolver names exactly that field and
performs zero network calls. -/
theorem c6_witness :
    (viridemState0.cache.lookup (viridemState0.generateKey viridemType credsNoSecret) = none ∧
      missingFields credsNoSecret = ["client_secret"] ∧
      truthy credsNoSecret.client_secret = false) ∧
    ViridemOAuth2API.getAccessToken envSuccess 0 credsNoSecret viridemState0 =
      (Except.error ("Missing required credentials: " ++
        String.intercalate (", ") (missingFields credsNoSecret)), viridemState0, []) :=
  ⟨⟨rfl, by decide, by decide⟩,
    (c6_validation_amended envSuccess 0 credsNoSecret viridemState0 [] rfl
      (by decide) rfl (by decide)).1⟩

/-- C1 counterexample: (i) the legacy resolver's terminal message when both
paths fail names only the OAuth2 reason — the Basic Auth reason
`basic-reason-xyz` does not occur in it; (ii) the new resolver's failed call
does modify the cache at the derived key when the entry there was expired:
the initial lookup purges it. -/
theorem c1_counterexample :
    (ViridemOauth2.getAccessToken envBothFail 10 credsFull []).1 =
      Except.error
        ("Authentication failed: OAuth2 failed (oauth boom), Basic Auth also failed") ∧
    containsSubstr
      ("Authentication failed: OAuth2 failed (oauth boom), Basic Auth also failed")
      ("basic-reason-xyz") = false ∧
    stExpired.cache.lookup (stExpired.generateKey viridemType credsFull) =
      some { token := "tok", expires := 5, type := TokenType.oauth } ∧
    ((5 : Int) ≤ 10) ∧
    (ViridemOAuth2API.getAccessToken envBothFail 10 credsFull stExpired).1 =
      Except.error ("All authentication methods failed. OAuth2: oauth boom. " ++
        "Basic Auth: basic-reason-xyz") ∧
    (ViridemOAuth2API.getAccessToken envBothFail 10 credsFull stExpired).2.1.cache.lookup
      (stExpired.generateKey viridemType credsFull) = none := by
  refine ⟨rfl, by decide, rfl, by decide, rfl, by decide⟩

/-- C1 (amended): when both attempts fail, `ViridemOAuth2API.getAccessToken`
fails with a message containing both underlying reasons and leaves the cache
unchanged when the derived key held no entry; an expired entry at the key is
removed by the initial lookup of the failed call; and the legacy resolver's
terminal message names only the OAuth2 reason. -/
theorem c1_both_fail_amended (env : NetEnv) (now : Int) (credentials : Credentials)
    (st : TokenCacheManager) (om bm : String) (cache : List (String × LegacyEntry))
    (hcold : st.cache.lookup (st.generateKey viridemType credentials) = none)
    (hval : missingFields credentials = [])
    (h3 : ViridemOAuth2API.tryOAuth2Authentication env credentials now st = Except.error om)
    (h4 : ViridemOAuth2API.tryBasicAuthentication env credentials now st = Except.error bm) :
    ViridemOAuth2API.getAccessToken env now credentials st =
      (Except.error ("All authentication methods failed. OAuth2: " ++ om ++
        ". Basic Auth: " ++ bm), st, [NetCall.oauthToken, NetCall.basicProbe]) ∧
    containsSubstr ("All authentication methods failed. OAuth2: " ++ om ++
      ". Basic Auth: " ++ bm) om = true ∧
    containsSubstr ("All authentication methods failed. OAuth2: " ++ om ++
      ". Basic Auth: " ++ bm) bm = true ∧
    (∀ (st' : TokenCacheManager) (e : TokenCacheEntry),
      st'.cache.lookup (st'.generateKey viridemType credentials) = some e →
      e.expires ≤ now →
      ViridemOAuth2API.tryOAuth2Authentication env credentials now
          { st' with cache := mapDelete st'.cache (st'.generateKey viridemType credentials) } =
        Except.error om →
      ViridemOAuth2API.tryBasicAuthentication env credentials now
          { st' with cache := mapDelete st'.cache (st'.generateKey viridemType credentials) } =
        Except.error bm →
      (ViridemOAuth2API.getAccessToken env now credentials st').2.1.cache.lookup
        (st'.generateKey viridemType credentials) = none) ∧
    (∀ om2 bm2, env.oauthFetch = Except.error om2 → env.basicFetch = Except.error bm2 →
      cache.lookup (legacyCacheKey credentials) = none →
      truthy credentials.client_id = true → truthy credentials.client_secret = true →
      truthy credentials.username = true → truthy credentials.password = true →
      ViridemOauth2.getAccessToken env now credentials cache =
        (Except.error ("Authentication failed: OAuth2 failed (" ++ om2 ++
          "), Basic Auth also failed"), cache, [NetCall.oauthToken, NetCall.basicProbe])) := by
  refine ⟨(getAccessToken_cold env now credentials st hcold).trans
    (authSequence_both_fail env now credentials st om bm hval h3 h4), ?_, ?_, ?_, ?_⟩
  · have hassoc : "All authentication methods failed. OAuth2: " ++ om ++
        ". Basic Auth: " ++ bm =
        "All authentication methods failed. OAuth2: " ++
          (om ++ (". Basic Auth: " ++ bm)) := by
      rw [String.append_assoc, String.append_assoc]
    rw [hassoc]
    exact containsSubstr_mid _ _ _
  · exact containsSubstr_right _ _
  · intro st' e hl hx h3' h4'
    have hr := (getAccessToken_expired_entry env now credentials st' e hl hx).trans
      (authSequence_both_fail env now credentials
        { st' with cache := mapDelete st'.cache (st'.generateKey viridemType credentials) }
        om bm hval h3' h4')
    rw [hr]
    exact lookup_mapDelete_self st'.cache (st'.generateKey viridemType credentials)
  · intro om2 bm2 ho hb hlc t1 t2 t3 t4
    exact legacy_both_fail env now credentials cache om2 bm2 hlc t1 t2 t3 t4 ho hb

/-- C1 witness: both endpoints reject on a cold registered cache at time 10. -/
theorem c1_witness :
    (viridemState0.cache.lookup (viridemState0.generateKey viridemType credsFull) = none ∧
      missingFields credsFull = [] ∧
      ViridemOAuth2API.tryOAuth2Authentication envBothFail credsFull 10 viridemState0 =
        Except.error ("oauth boom") ∧
      ViridemOAuth2API.tryBasicAuthentication envBothFail credsFull 10 viridemState0 =
        Except.error ("basic-reason-xyz")) ∧
    ViridemOAuth2API.getAccessToken envBothFail 10 credsFull viridemState0 =
      (Except.error ("All authentication methods failed. OAuth2: " ++ "oauth boom" ++
        ". Basic Auth: " ++ "basic-reason-xyz"), viridemState0,
        [NetCall.oauthToken, NetCall.basicProbe]) :=
  ⟨⟨rfl, by decide, rfl, rfl⟩,
    (c1_both_fail_amended envBothFail 10 credsFull viridemState0 ("oauth boom")
      ("basic-reason-xyz") [] rfl (by decide) rfl rfl).1⟩

/-- The environment whose token endpoint reports `expires_in = 0`. -/
def envZeroExpiry : NetEnv :=
  { oauthFetch := Except.ok
      { ok := true, status := 200, statusText := "OK", text := "",
        json := Except.ok
          { access_token := some ("t0"), expires_in := some 0,
            error := none, error_description := none } },
    basicFetch := Except.ok { ok := true, status := 200, statusText := "OK", text := "" } }

/-- C9 counterexample: for `expires_in = 0` — which is "60 seconds or less" —
JS falsiness makes `data.expires_in || 3600` fall back to 3600, so the legacy
resolver writes an entry expiring at `now + 3540000`, which is not already
expired at write time. -/
theorem c9_counterexample :
    (ViridemOauth2.getAccessToken envZeroExpiry 100 credsFull []).2.1.lookup
      (legacyCacheKey credsFull) = some { token := "t0", expires := 100 + 3540000 } ∧
    ¬((100 : Int) + 3540000 ≤ 100) := by
  refine ⟨by decide, by decide⟩

/-- C9 (amended): the legacy resolver caches a successful OAuth2 token with
expiry exactly `now + (expires_in, defaulting to 3600 when absent or zero) *
1000 - 60000`, with no minimum floor; for every nonzero `expires_in` of at
most 60 the written entry is already expired at write time, so any later call
performs network authentication again instead of using the cache. -/
theorem c9_legacy_expiry_amended (env : NetEnv) (now : Int) (credentials : Credentials)
    (cache : List (String × LegacyEntry)) (resp : OAuthHttpResponse)
    (data : OAuth2TokenResponse) (tok : String)
    (hlc : cache.lookup (legacyCacheKey credentials) = none)
    (t1 : truthy credentials.client_id = true) (t2 : truthy credentials.client_secret = true)
    (t3 : truthy credentials.username = true) (t4 : truthy credentials.password = true)
    (h1 : env.oauthFetch = Except.ok resp) (h2 : resp.ok = true)
    (h3 : resp.json = Except.ok data) (h4 : data.access_token = some tok)
    (h5 : (tok == "") = false) (h6 : truthy data.error = false) :
    ViridemOauth2.getAccessToken env now credentials cache =
      (Except.ok tok, mapSet cache (legacyCacheKey credentials)
        { token := tok, expires := now + jsOrInt data.expires_in 3600 * 1000 - 60000 },
        [NetCall.oauthToken]) ∧
    (∀ e : Int, data.expires_in = some e → e ≠ 0 → e ≤ 60 →
      now + jsOrInt data.expires_in 3600 * 1000 - 60000 ≤ now) ∧
    (∀ (env2 : NetEnv) (now2 : Int) (e : Int),
      data.expires_in = some e → e ≠ 0 → e ≤ 60 → now ≤ now2 →
      (ViridemOauth2.getAccessToken env2 now2 credentials
        (ViridemOauth2.getAccessToken env now credentials cache).2.1).2.2 ≠ []) := by
  have hmain := legacy_oauth_success env now credentials cache resp data tok hlc
    t1 t2 t3 t4 h1 h2 h3 h4 h5 h6
  have hstale : ∀ e : Int, data.expires_in = some e → e ≠ 0 → e ≤ 60 →
      now + jsOrInt data.expires_in 3600 * 1000 - 60000 ≤ now := by
    intro e he hnz hle
    have hz : (e == 0) = false := by simpa using hnz
    rw [he]
    simp only [jsOrInt, hz, Bool.false_eq_true, if_false]
    omega
  refine ⟨hmain, hstale, ?_⟩
  intro env2 now2 e he hnz hle hmon
  rw [hmain]
  apply legacy_getAccessToken_stale
  · intro e2 hl2
    rw [lookup_mapSet_self] at hl2
    have hE := Option.some_inj.mp hl2
    rw [← hE]
    have hs := hstale e he hnz hle
    show now + jsOrInt data.expires_in 3600 * 1000 - 60000 ≤ now2
    omega
  · exact t1
  · exact t2
  · exact t3
  · exact t4

/-- The token response reporting a 30-second lifetime. -/
def shortExpiryResp : OAuthHttpResponse :=
  { ok := true, status := 200, statusText := "OK", text := "",
    json := Except.ok
      { access_token := some ("t0"), expires_in := some 30,
        error := none, error_description := none } }

/-- The environment whose token endpoint reports `expires_in = 30`. -/
def envShortExpiry : NetEnv :=
  { oauthFetch := Except.ok shortExpiryResp,
    basicFetch := Except.ok { ok := true, status := 200, statusText := "OK", text := "" } }

/-- C9 witness: `expires_in = 30` at `now = 100000` writes an entry expiring
at 70000 (already past), and a call at the same instant redoes the network
authentication. -/
theorem c9_witness :
    (([] : List (String × LegacyEntry)).lookup (legacyCacheKey credsFull) = none ∧
      (envShortExpiry.oauthFetch = Except.ok shortExpiryResp) ∧
      (30 : Int) ≠ 0 ∧ (30 : Int) ≤ 60 ∧ (100000 : Int) ≤ 100000) ∧
    (ViridemOauth2.getAccessToken envShortExpiry 100000 credsFull
      (ViridemOauth2.getAccessToken envShortExpiry 100000 credsFull []).2.1).2.2 ≠ [] :=
  ⟨⟨rfl, rfl, by decide, by decide, by decide⟩,
    (c9_legacy_expiry_amended envShortExpiry 100000 credsFull [] shortExpiryResp
      { access_token := some ("t0"), expires_in := some 30,
        error := none, error_description := none }
      ("t0") rfl (by decide) (by decide) (by decide) (by decide) rfl rfl rfl rfl
      (by decide) (by decide)).2.2 envShortExpiry 100000 30 rfl (by decide) (by decide)
      (by decide)⟩

end Viridem
